import Mathlib

/-!
Shallow embedding of the checkout/cart core of the online shopping backend
(`api/models.py`, `api/serializers.py`, `api/views.py`).

Modelling conventions:
* Database rows are Lean structures; tables are lists kept in stored
  (insertion / primary-key) order, which is the order an unordered Django
  queryset iterates.
* `DecimalField(decimal_places=2)` values (product price, order totals) are
  embedded as integer cents (`Int`).  Python `Decimal` addition and
  `Decimal * int` multiplication are exact at these magnitudes, so integer
  cents model them with no loss.
* Python integers are `Int`; `PositiveIntegerField` columns carry their
  non-negativity as explicit hypotheses where a theorem needs it.
* Each HTTP endpoint of `CartViewSet` becomes a total function from the
  persistent `State` to a result plus the committed `State`.  Django commits
  the `transaction.atomic` block whenever the view returns normally (also on
  a 400 `Response`), so every early return yields the state as mutated so far.
-/

namespace OnlineKart

/-- Embeds `api/models.py` `Product`: primary key `id` (`pid` here), `price`
(decimal, stored as cents), `stock` (`PositiveIntegerField`), `is_active`. -/
structure Product where
  pid : Nat
  price : Int
  stock : Int
  isActive : Bool
deriving DecidableEq

/-- Embeds `api/models.py` `CartItem`: a row (cart owner, product, quantity)
with `unique_together ("cart", "product")`.  The owning cart is identified by
its user, since each user has at most one cart (`OneToOneField`). -/
structure CartItem where
  userId : Nat
  productId : Nat
  quantity : Int
deriving DecidableEq

/-- Embeds `api/models.py` `OrderItem`: (order, product, quantity, unit price
frozen at purchase time, stored as cents). -/
structure OrderItem where
  orderId : Nat
  productId : Nat
  quantity : Int
  unitPrice : Int
deriving DecidableEq

/-- Embeds `api/models.py` `Order`: primary key `oid`, owner, status string,
total amount in cents, shipping address. -/
structure Order where
  oid : Nat
  userId : Nat
  status : String
  totalAmount : Int
  shippingAddress : String
deriving DecidableEq

/-- The persistent store: the `Product`, `Cart`, `CartItem`, `Order` and
`OrderItem` tables.  A `Cart` row holds nothing but its owner, so the cart
table is the list of user ids that own a cart row.  `nextOrderId` is the
auto-increment counter for `Order` primary keys. -/
structure State where
  products : List Product
  carts : List Nat
  cartItems : List CartItem
  orders : List Order
  orderItems : List OrderItem
  nextOrderId : Nat
deriving DecidableEq

/-- `Product.objects.get(id=pid)` over a product list: first row whose primary
key matches. -/
def findProductIn (ps : List Product) (pid : Nat) : Option Product :=
  ps.find? (fun p => p.pid == pid)

/-- Product lookup by primary key in the current state. -/
def findProduct (s : State) (pid : Nat) : Option Product :=
  findProductIn s.products pid

/-- Placeholder row used to totalise field reads of a missing product; with
referential integrity (every cart item references an existing product) it is
never reached, and its zero stock makes a dangling reference fail the stock
check rather than pass it. -/
def defaultProduct : Product :=
  { pid := 0, price := 0, stock := 0, isActive := false }

/-- `product.stock` as read through a primary-key lookup. -/
def stockOf (s : State) (pid : Nat) : Int :=
  ((findProduct s pid).getD defaultProduct).stock

/-- `product.price` as read through a primary-key lookup. -/
def priceOf (s : State) (pid : Nat) : Int :=
  ((findProduct s pid).getD defaultProduct).price

/-- `cart.items.all()` for the cart of user `sh`, in stored row order (the
queryset declares no ordering). -/
def cartItemsOf (s : State) (sh : Nat) : List CartItem :=
  s.cartItems.filter (fun it => it.userId == sh)

/-- Embeds `CartViewSet._get_or_create_cart` (views.py line 174):
`Cart.objects.get_or_create(user=user)` - creates the cart row when the user
has none.  This runs inside the enclosing view, so the created row is part of
the committed state even when the view later answers 400. -/
def getOrCreateCart (s : State) (sh : Nat) : State :=
  if s.carts.contains sh then s else { s with carts := sh :: s.carts }

/-- Embeds `Product.objects.get(id=..., is_active=True)` used by
`AddToCartSerializer.validate` and `get_object_or_404` in `add_item`. -/
def findActiveProduct (s : State) (pid : Nat) : Option Product :=
  s.products.find? (fun p => p.pid == pid && p.isActive)

/-- Embeds `AddToCartSerializer.validate` (serializers.py lines 167-176):
product must exist and be active, quantity at least 1, stock at least the
quantity. -/
def addToCartValid (s : State) (productId : Nat) (quantity : Int) : Bool :=
  match findActiveProduct s productId with
  | none => false
  | some product =>
      if quantity < 1 then false
      else if product.stock < quantity then false
      else true

/-- Outcome of `CartViewSet.add_item` (views.py lines 193-214). -/
inductive AddResult where
  | validationError
  | notFound
  | insufficientStock
  | ok
deriving DecidableEq

/-- Embeds `CartItem.objects.get_or_create(cart=cart, product=product,
defaults=quantity)` followed by `item.quantity = quantity; item.save()` when
the row already existed (views.py lines 208-213): the stored quantity is
replaced, not accumulated. -/
def upsertItem (s : State) (sh productId : Nat) (quantity : Int) : State :=
  if s.cartItems.any (fun it => it.userId == sh && it.productId == productId) then
    { s with cartItems := s.cartItems.map (fun it =>
        if it.userId == sh && it.productId == productId then
          { it with quantity := quantity }
        else it) }
  else
    { s with cartItems := s.cartItems ++ [{ userId := sh, productId := productId, quantity := quantity }] }

/-- Embeds `CartViewSet.add_item` (views.py lines 193-214): serializer
validation, active-product lookup (`get_object_or_404`), the stock re-check in
the view, then cart creation and item upsert. -/
def add_item (s : State) (sh productId : Nat) (quantity : Int) : AddResult × State :=
  if addToCartValid s productId quantity then
    match findActiveProduct s productId with
    | none => (AddResult.notFound, s)
    | some product =>
        if product.stock < quantity then (AddResult.insufficientStock, s)
        else (AddResult.ok, upsertItem (getOrCreateCart s sh) sh productId quantity)
  else (AddResult.validationError, s)

/-- Embeds `CartViewSet.remove_item` (views.py lines 225-235): a missing or
falsy (`0`) `product_id` yields a 400; otherwise the cart row is fetched or
created and every matching cart item row is deleted - deleting zero rows is
still a success. The `Bool` is `true` for the 200 response carrying the cart. -/
def remove_item (s : State) (sh : Nat) (productIdOpt : Option Nat) : Bool × State :=
  match productIdOpt with
  | none => (false, s)
  | some productId =>
      if productId == 0 then (false, s)
      else
        let s1 := getOrCreateCart s sh
        (true, { s1 with cartItems :=
          s1.cartItems.filter (fun it => !(it.userId == sh && it.productId == productId)) })

/-- The state a successful `remove_item` call commits: the cart row exists and
every cart item of the shopper for the given product is deleted. -/
def removeItemState (s : State) (sh pid : Nat) : State :=
  { products := (getOrCreateCart s sh).products
    carts := (getOrCreateCart s sh).carts
    cartItems := (getOrCreateCart s sh).cartItems.filter (fun it => !(it.userId == sh && it.productId == pid))
    orders := (getOrCreateCart s sh).orders
    orderItems := (getOrCreateCart s sh).orderItems
    nextOrderId := (getOrCreateCart s sh).nextOrderId }

/-- Outcome of `CartViewSet.checkout` (views.py lines 261-317). -/
inductive CheckoutResult where
  | emptyCart
  | insufficientStock (productId : Nat)
  | success (o : Order)
deriving DecidableEq

/-- The stock-validation loop (views.py lines 278-286): the first cart item
whose quantity exceeds the current stock of its product, if any. -/
def firstInsufficient (s : State) (items : List CartItem) : Option CartItem :=
  items.find? (fun it => decide (stockOf s it.productId < it.quantity))

/-- One pass of `it.product.stock -= it.quantity; it.product.save()` over the
product table: the row with the matching primary key is decremented. -/
def deductOne (it : CartItem) (p : Product) : Product :=
  if p.pid == it.productId then { p with stock := p.stock - it.quantity } else p

/-- The deduction loop of views.py lines 293-307 applied to the product table:
for each cart item in order, save the decremented product row. -/
def deductStocks (ps : List Product) (items : List CartItem) : List Product :=
  items.foldl (fun ps it => ps.map (deductOne it)) ps

/-- All deductions of the loop as they land on a single product row. -/
def applyDeductions (items : List CartItem) (p : Product) : Product :=
  items.foldl (fun p it => deductOne it p) p

/-- The order items created by the loop of views.py lines 293-304, freezing
`unit_price = product.price` at checkout time. -/
def checkoutOrderItems (s1 : State) (oid : Nat) (items : List CartItem) : List OrderItem :=
  items.map (fun it =>
    { orderId := oid, productId := it.productId, quantity := it.quantity,
      unitPrice := priceOf s1 it.productId })

/-- `total = Decimal("0.00"); for it in items: total += unit_price * quantity`
(views.py lines 291-296), in exact integer-cent arithmetic. -/
def checkoutTotal (ols : List OrderItem) : Int :=
  ols.foldl (fun acc ol => acc + ol.unitPrice * ol.quantity) (0 : Int)

/-- The order row as committed by views.py lines 289 and 310-312: created for
the shopper, then updated once with the accumulated total and status `paid`. -/
def checkoutOrder (s1 : State) (sh : Nat) (addr : String) (items : List CartItem) : Order :=
  { oid := s1.nextOrderId, userId := sh, status := "paid",
    totalAmount := checkoutTotal (checkoutOrderItems s1 s1.nextOrderId items),
    shippingAddress := addr }

/-- The commit path of `CartViewSet.checkout` (views.py lines 288-317): create
the order, accumulate `total += unit_price * quantity` in exact decimal
arithmetic, deduct stock per line, bulk-create the order items, set the order
to `paid` with the accumulated total, and delete the cart items of the
shopper. -/
def commitCheckout (s1 : State) (sh : Nat) (addr : String) (items : List CartItem) :
    CheckoutResult × State :=
  (CheckoutResult.success (checkoutOrder s1 sh addr items),
   { products := deductStocks s1.products items
     carts := s1.carts
     cartItems := s1.cartItems.filter (fun it => !(it.userId == sh))
     orders := s1.orders ++ [checkoutOrder s1 sh addr items]
     orderItems := s1.orderItems ++ checkoutOrderItems s1 s1.nextOrderId items
     nextOrderId := s1.nextOrderId + 1 })

/-- The body of `CartViewSet.checkout` after the cart row has been fetched or
created: empty-cart check, stock validation, then commit. -/
def checkoutCore (s1 : State) (sh : Nat) (addr : String) : CheckoutResult × State :=
  let items := cartItemsOf s1 sh
  if items.isEmpty then (CheckoutResult.emptyCart, s1)
  else
    match firstInsufficient s1 items with
    | some it => (CheckoutResult.insufficientStock it.productId, s1)
    | none => commitCheckout s1 sh addr items

/-- Embeds `CartViewSet.checkout` (views.py lines 261-317).  The returned
state is the one committed by `transaction.atomic`: the view raises no
exception on any path, so even the 400 responses commit whatever was written
before them (only the cart-row creation can have happened by then). -/
def checkout (s : State) (sh : Nat) (addr : String) : CheckoutResult × State :=
  checkoutCore (getOrCreateCart s sh) sh addr

/-- The sequence of product primary keys in the order the checkout queryset
`cart.items.select_related("product").select_for_update(of=("self","product"))`
(views.py lines 269-271) iterates them, which is the order their row locks are
taken.  The queryset declares no `order_by`, so this is stored row order. -/
def checkoutLockOrder (s : State) (sh : Nat) : List Nat :=
  (cartItemsOf s sh).map (fun it => it.productId)

/-- Outcome of one run of the checkout view including its transaction
boundary: either the transaction layer aborts with a serialization conflict
(carrying the number of attempts the view made before surfacing it), or the
body completes with its result and committed state. -/
inductive TxResult where
  | conflict (attemptsMade : Nat)
  | done (r : CheckoutResult) (s : State)
deriving DecidableEq

/-- Embeds the transaction structure around `CartViewSet.checkout`: the
`transaction.atomic` decorator runs the body exactly once, and the view
contains no exception handler and no retry loop, so a serialization failure
raised by the transaction layer surfaces to the caller after that single
attempt.  `txConflict n` tells whether the transaction layer reports a
serialization failure on attempt `n`. -/
def checkoutEngine (s : State) (sh : Nat) (addr : String) (txConflict : Nat → Bool) :
    TxResult :=
  if txConflict 1 then TxResult.conflict 1
  else
    match checkout s sh addr with
    | (r, s2) => TxResult.done r s2

/-- Total quantity the cart items of the checked-out cart request for a given
product.  With the `unique_together ("cart", "product")` constraint there is at
most one such item, so this is that item quantity, or `0`. -/
def sumQty (items : List CartItem) (pid : Nat) : Int :=
  ((items.filter (fun it => it.productId == pid)).map (fun it => it.quantity)).sum

/-- The success condition of `add_item` as read off serializers.py lines
167-176 and views.py lines 200-205: the product exists and is active, the
quantity is at least 1, and the stock covers the quantity. -/
def addOk (s : State) (pid : Nat) (qty : Int) : Prop :=
  match findActiveProduct s pid with
  | none => False
  | some p => 1 ≤ qty ∧ qty ≤ p.stock

/-! ### Concrete states used by the witnesses and counterexamples -/

/-- Two active products: product 1 at 99.99 with stock 10, product 2 at 5.00
with stock 3 (the scenario data of the specification). -/
def demoProducts : List Product :=
  [{ pid := 1, price := 9999, stock := 10, isActive := true },
   { pid := 2, price := 500, stock := 3, isActive := true }]

/-- Shopper 1 requests 5 units of product 2, which has stock 3. -/
def c1State : State :=
  { products := demoProducts
    carts := [1]
    cartItems := [{ userId := 1, productId := 2, quantity := 5 }]
    orders := [], orderItems := [], nextOrderId := 1 }

/-- Shopper 1 has a two-line cart that passes the stock check. -/
def c2State : State :=
  { products := demoProducts
    carts := [1]
    cartItems := [{ userId := 1, productId := 1, quantity := 2 },
                  { userId := 1, productId := 2, quantity := 3 }]
    orders := [], orderItems := [], nextOrderId := 1 }

/-- The order that checking out `c2State` commits. -/
def c3Order : Order :=
  { oid := 1, userId := 1, status := "paid", totalAmount := 21498,
    shippingAddress := "a" }

/-- Shopper 1 stores the line for product 2 before the line for product 1. -/
def c4State : State :=
  { products := demoProducts
    carts := [1]
    cartItems := [{ userId := 1, productId := 2, quantity := 1 },
                  { userId := 1, productId := 1, quantity := 1 }]
    orders := [], orderItems := [], nextOrderId := 1 }

/-- Shopper 1 owns no cart row and no cart items. -/
def c6State : State :=
  { products := demoProducts
    carts := []
    cartItems := []
    orders := [], orderItems := [], nextOrderId := 1 }

/-- Shopper 1 already has a line of quantity 2 for product 1. -/
def c8State : State :=
  { products := demoProducts
    carts := [1]
    cartItems := [{ userId := 1, productId := 1, quantity := 2 }]
    orders := [], orderItems := [], nextOrderId := 1 }

/-- Shopper 1 has a line for product 1 only, and no cart row. -/
def c10State : State :=
  { products := demoProducts
    carts := []
    cartItems := [{ userId := 1, productId := 1, quantity := 2 }]
    orders := [], orderItems := [], nextOrderId := 1 }

/-! ### Basic lemmas about the embedded operations -/

@[simp]
theorem getOrCreateCart_products (s : State) (sh : Nat) :
    (getOrCreateCart s sh).products = s.products := by
  unfold getOrCreateCart; split <;> rfl

@[simp]
theorem getOrCreateCart_cartItems (s : State) (sh : Nat) :
    (getOrCreateCart s sh).cartItems = s.cartItems := by
  unfold getOrCreateCart; split <;> rfl

@[simp]
theorem getOrCreateCart_orders (s : State) (sh : Nat) :
    (getOrCreateCart s sh).orders = s.orders := by
  unfold getOrCreateCart; split <;> rfl

@[simp]
theorem getOrCreateCart_orderItems (s : State) (sh : Nat) :
    (getOrCreateCart s sh).orderItems = s.orderItems := by
  unfold getOrCreateCart; split <;> rfl

@[simp]
theorem getOrCreateCart_nextOrderId (s : State) (sh : Nat) :
    (getOrCreateCart s sh).nextOrderId = s.nextOrderId := by
  unfold getOrCreateCart; split <;> rfl

theorem getOrCreateCart_contains (s : State) (sh : Nat) :
    (getOrCreateCart s sh).carts.contains sh = true := by
  unfold getOrCreateCart
  split
  · assumption
  · simp [List.contains_cons]

theorem getOrCreateCart_of_contains (s : State) (sh : Nat)
    (h : s.carts.contains sh = true) :
    getOrCreateCart s sh = s := by
  unfold getOrCreateCart
  rw [if_pos h]

theorem remove_item_some_eq (s : State) (sh pid : Nat) (h : ¬ ((pid == 0) = true)) :
    remove_item s sh (some pid) = (true, removeItemState s sh pid) := by
  simp only [remove_item]
  rw [if_neg h]
  rfl

theorem removeItemState_eq_self (t : State) (sh pid : Nat)
    (hc : t.carts.contains sh = true)
    (hf : t.cartItems.filter (fun it => !(it.userId == sh && it.productId == pid))
        = t.cartItems) :
    removeItemState t sh pid = t := by
  unfold removeItemState
  rw [getOrCreateCart_of_contains t sh hc, hf]

@[simp]
theorem cartItemsOf_getOrCreate (s : State) (sh t : Nat) :
    cartItemsOf (getOrCreateCart s sh) t = cartItemsOf s t := by
  simp [cartItemsOf]

@[simp]
theorem stockOf_getOrCreate (s : State) (sh pid : Nat) :
    stockOf (getOrCreateCart s sh) pid = stockOf s pid := by
  simp [stockOf, findProduct]

@[simp]
theorem priceOf_getOrCreate (s : State) (sh pid : Nat) :
    priceOf (getOrCreateCart s sh) pid = priceOf s pid := by
  simp [priceOf, findProduct]

@[simp]
theorem firstInsufficient_getOrCreate (s : State) (sh : Nat) (items : List CartItem) :
    firstInsufficient (getOrCreateCart s sh) items = firstInsufficient s items := by
  unfold firstInsufficient
  congr 1
  funext it
  simp

/-! ### Path lemmas for `checkout` -/

theorem checkout_empty_eq (s : State) (sh : Nat) (addr : String)
    (h : cartItemsOf s sh = []) :
    checkout s sh addr = (CheckoutResult.emptyCart, getOrCreateCart s sh) := by
  simp [checkout, checkoutCore, h]

theorem checkout_insuff_eq (s : State) (sh : Nat) (addr : String) (it : CartItem)
    (h1 : cartItemsOf s sh ≠ [])
    (hf : firstInsufficient s (cartItemsOf s sh) = some it) :
    checkout s sh addr
      = (CheckoutResult.insufficientStock it.productId, getOrCreateCart s sh) := by
  simp [checkout, checkoutCore, hf, h1]

theorem checkout_commit_eq (s : State) (sh : Nat) (addr : String)
    (h1 : cartItemsOf s sh ≠ [])
    (hf : firstInsufficient s (cartItemsOf s sh) = none) :
    checkout s sh addr
      = commitCheckout (getOrCreateCart s sh) sh addr (cartItemsOf s sh) := by
  simp [checkout, checkoutCore, hf, h1]

theorem checkout_success_inv (s : State) (sh : Nat) (addr : String) (o : Order)
    (hsucc : (checkout s sh addr).1 = CheckoutResult.success o) :
    cartItemsOf s sh ≠ [] ∧
    firstInsufficient s (cartItemsOf s sh) = none ∧
    checkout s sh addr
      = commitCheckout (getOrCreateCart s sh) sh addr (cartItemsOf s sh) := by
  by_cases h1 : cartItemsOf s sh = []
  · rw [checkout_empty_eq s sh addr h1] at hsucc
    exact absurd hsucc (by simp)
  · cases hf : firstInsufficient s (cartItemsOf s sh) with
    | some it =>
        rw [checkout_insuff_eq s sh addr it h1 hf] at hsucc
        exact absurd hsucc (by simp)
    | none => exact ⟨h1, rfl, checkout_commit_eq s sh addr h1 hf⟩

/-! ### The deduction loop as a per-row update -/

theorem applyDeductions_stock (items : List CartItem) (p : Product) :
    applyDeductions items p = { p with stock := p.stock - sumQty items p.pid } := by
  induction items generalizing p with
  | nil => simp [applyDeductions, sumQty]
  | cons it items ih =>
      have hstep : applyDeductions (it :: items) p = applyDeductions items (deductOne it p) :=
        rfl
      rw [hstep, ih]
      by_cases h : p.pid = it.productId
      · simp [deductOne, sumQty, h, List.filter_cons, sub_sub]
      · have h2 : ¬ (it.productId = p.pid) := fun he => h he.symm
        simp [deductOne, sumQty, h, h2, List.filter_cons]

theorem deductStocks_eq_map (items : List CartItem) (ps : List Product) :
    deductStocks ps items = ps.map (fun p => applyDeductions items p) := by
  induction items generalizing ps with
  | nil => simp [deductStocks, applyDeductions]
  | cons it items ih =>
      have hstep : deductStocks ps (it :: items)
          = deductStocks (ps.map (deductOne it)) items := rfl
      rw [hstep, ih, List.map_map]
      rfl

theorem checkout_products_formula (s : State) (sh : Nat) (addr : String)
    (h1 : cartItemsOf s sh ≠ [])
    (hf : firstInsufficient s (cartItemsOf s sh) = none) :
    (checkout s sh addr).2.products
      = s.products.map
          (fun p => { p with stock := p.stock - sumQty (cartItemsOf s sh) p.pid }) := by
  rw [checkout_commit_eq s sh addr h1 hf]
  show deductStocks (getOrCreateCart s sh).products (cartItemsOf s sh) = _
  rw [getOrCreateCart_products, deductStocks_eq_map]
  congr 1
  funext p
  rw [applyDeductions_stock]

/-! ### Uniqueness of primary keys -/

theorem filter_key_of_nodup {α : Type} (f : α → Nat) :
    ∀ (ls : List α), (ls.map f).Nodup → ∀ x ∈ ls,
      ls.filter (fun y => f y == f x) = [x] := by
  intro ls
  induction ls with
  | nil => intro _ x hx; cases hx
  | cons a ls ih =>
      intro hnd x hx
      rw [List.map_cons, List.nodup_cons] at hnd
      rcases List.mem_cons.mp hx with rfl | hx2
      · have htail : ls.filter (fun y => f y == f x) = [] := by
          rw [List.filter_eq_nil_iff]
          intro y hy
          simp only [beq_iff_eq]
          intro he
          exact hnd.1 (he ▸ List.mem_map_of_mem f hy)
        simp [List.filter_cons, htail]
      · have hne : ¬ (f a = f x) := by
          intro he
          exact hnd.1 (he ▸ List.mem_map_of_mem f hx2)
        rw [List.filter_cons, if_neg (by simp [hne])]
        exact ih hnd.2 x hx2

theorem find?_key_of_nodup {α : Type} (f : α → Nat) :
    ∀ (ls : List α), (ls.map f).Nodup → ∀ x ∈ ls,
      ls.find? (fun y => f y == f x) = some x := by
  intro ls
  induction ls with
  | nil => intro _ x hx; cases hx
  | cons a ls ih =>
      intro hnd x hx
      rw [List.map_cons, List.nodup_cons] at hnd
      rcases List.mem_cons.mp hx with rfl | hx2
      · exact List.find?_cons_of_pos _ (by simp)
      · have hne : ¬ (f a = f x) := by
          intro he
          exact hnd.1 (he ▸ List.mem_map_of_mem f hx2)
        rw [List.find?_cons_of_neg _ (by simp [hne])]
        exact ih hnd.2 x hx2

theorem findProduct_of_nodup (s : State) (p : Product)
    (hnd : (s.products.map (fun q => q.pid)).Nodup) (hp : p ∈ s.products) :
    findProduct s p.pid = some p := by
  unfold findProduct findProductIn
  exact find?_key_of_nodup (fun q => q.pid) s.products hnd p hp

theorem stockOf_of_nodup (s : State) (p : Product)
    (hnd : (s.products.map (fun q => q.pid)).Nodup) (hp : p ∈ s.products) :
    stockOf s p.pid = p.stock := by
  simp [stockOf, findProduct_of_nodup s p hnd hp]

theorem sumQty_of_nodup (items : List CartItem) (it : CartItem)
    (hnd : (items.map (fun y => y.productId)).Nodup) (hit : it ∈ items) :
    sumQty items it.productId = it.quantity := by
  unfold sumQty
  rw [filter_key_of_nodup (fun y => y.productId) items hnd it hit]
  simp

theorem sumQty_eq_zero (items : List CartItem) (pid : Nat)
    (h : pid ∉ items.map (fun y => y.productId)) :
    sumQty items pid = 0 := by
  unfold sumQty
  have : items.filter (fun it => it.productId == pid) = [] := by
    rw [List.filter_eq_nil_iff]
    intro it hit
    simp only [beq_iff_eq]
    intro he
    exact h (he ▸ List.mem_map_of_mem _ hit)
  rw [this]
  simp

/-! ### Sums and counting -/

theorem foldl_add_eq_sum (f : OrderItem → Int) (ls : List OrderItem) (a : Int) :
    ls.foldl (fun acc ol => acc + f ol) a = a + (ls.map f).sum := by
  induction ls generalizing a with
  | nil => simp
  | cons l ls ih =>
      rw [List.foldl_cons, ih, List.map_cons, List.sum_cons]
      ring

theorem countP_map_eq {α : Type} (f : α → α) (q : α → Bool)
    (h : ∀ a, q (f a) = q a) :
    ∀ ls : List α, (ls.map f).countP q = ls.countP q := by
  intro ls
  induction ls with
  | nil => rfl
  | cons a ls ih => simp [List.map_cons, List.countP_cons, ih, h]

/-! ### Frame lemmas: only checkout touches the product table -/

@[simp]
theorem upsertItem_products (s : State) (sh pid : Nat) (qty : Int) :
    (upsertItem s sh pid qty).products = s.products := by
  unfold upsertItem; split <;> rfl

theorem add_item_products (s : State) (sh pid : Nat) (qty : Int) :
    (add_item s sh pid qty).2.products = s.products := by
  unfold add_item
  split
  · split
    · rfl
    · split
      · rfl
      · simp
  · rfl

theorem remove_item_products (s : State) (sh : Nat) (po : Option Nat) :
    (remove_item s sh po).2.products = s.products := by
  cases po with
  | none => rfl
  | some pid =>
      simp only [remove_item]
      split
      · rfl
      · simp

/-! ### Conservation on the commit path -/

theorem commitCheckout_conservation (s1 : State) (sh : Nat) (addr : String)
    (items : List CartItem)
    (hfresh : ∀ ol ∈ s1.orderItems, ol.orderId < s1.nextOrderId) :
    ((commitCheckout s1 sh addr items).2.orderItems.filter
        (fun ol => ol.orderId == (checkoutOrder s1 sh addr items).oid))
      = checkoutOrderItems s1 s1.nextOrderId items ∧
    (checkoutOrder s1 sh addr items).totalAmount
      = ((checkoutOrderItems s1 s1.nextOrderId items).map
          (fun ol => ol.unitPrice * ol.quantity)).sum ∧
    (∀ ol ∈ checkoutOrderItems s1 s1.nextOrderId items,
      ol.unitPrice = priceOf s1 ol.productId) := by
  refine ⟨?_, ?_, ?_⟩
  · show (s1.orderItems ++ checkoutOrderItems s1 s1.nextOrderId items).filter
        (fun ol => ol.orderId == s1.nextOrderId) = _
    rw [List.filter_append]
    have hnil : s1.orderItems.filter (fun ol => ol.orderId == s1.nextOrderId) = [] := by
      rw [List.filter_eq_nil_iff]
      intro ol hol
      simp only [beq_iff_eq]
      exact Nat.ne_of_lt (hfresh ol hol)
    have hall : (checkoutOrderItems s1 s1.nextOrderId items).filter
        (fun ol => ol.orderId == s1.nextOrderId)
        = checkoutOrderItems s1 s1.nextOrderId items := by
      rw [List.filter_eq_self]
      intro ol hol
      rcases List.mem_map.mp hol with ⟨it, _, rfl⟩
      simp
    rw [hnil, hall, List.nil_append]
  · show checkoutTotal (checkoutOrderItems s1 s1.nextOrderId items) = _
    unfold checkoutTotal
    rw [foldl_add_eq_sum, zero_add]
  · intro ol hol
    rcases List.mem_map.mp hol with ⟨it, _, rfl⟩
    rfl

/-! ### The claims -/

/-- C1: for every cart with at least one line in which some line quantity
exceeds the current stock of its product, checkout fails with the
insufficient-stock error carrying the identifier of an offending product, and
afterwards the stock of every product, the cart items of the shopper, and the
order and order-item tables are exactly as they were before the call: nothing
is committed, even for lines whose stock check passed. -/
theorem checkout_insufficient_rolls_back (s : State) (sh : Nat) (addr : String)
    (hbad : ∃ it ∈ cartItemsOf s sh, stockOf s it.productId < it.quantity) :
    ∃ it ∈ cartItemsOf s sh,
      stockOf s it.productId < it.quantity ∧
      (checkout s sh addr).1 = CheckoutResult.insufficientStock it.productId ∧
      (checkout s sh addr).2.products = s.products ∧
      (checkout s sh addr).2.cartItems = s.cartItems ∧
      (checkout s sh addr).2.orders = s.orders ∧
      (checkout s sh addr).2.orderItems = s.orderItems := by
  obtain ⟨it1, hm1, hlt1⟩ := hbad
  have hne : cartItemsOf s sh ≠ [] := by
    intro h; rw [h] at hm1; cases hm1
  have hsome : (firstInsufficient s (cartItemsOf s sh)).isSome = true := by
    unfold firstInsufficient
    exact List.find?_isSome.mpr ⟨it1, hm1, decide_eq_true hlt1⟩
  obtain ⟨it0, hf⟩ := Option.isSome_iff_exists.mp hsome
  have hmem : it0 ∈ cartItemsOf s sh := by
    unfold firstInsufficient at hf
    exact List.mem_of_find?_eq_some hf
  have hlt0 : stockOf s it0.productId < it0.quantity := by
    unfold firstInsufficient at hf
    have h3 := List.find?_some hf
    exact of_decide_eq_true h3
  have heq := checkout_insuff_eq s sh addr it0 hne hf
  exact ⟨it0, hmem, hlt0, by rw [heq], by rw [heq]; simp, by rw [heq]; simp,
    by rw [heq]; simp, by rw [heq]; simp⟩

/-- Witness for C1 at the scenario of the specification: requested quantity 5,
stock 3. -/
theorem checkout_insufficient_rolls_back_witness :
    ∃ it ∈ cartItemsOf c1State 1,
      stockOf c1State it.productId < it.quantity ∧
      (checkout c1State 1 "addr").1 = CheckoutResult.insufficientStock it.productId ∧
      (checkout c1State 1 "addr").2.products = c1State.products ∧
      (checkout c1State 1 "addr").2.cartItems = c1State.cartItems ∧
      (checkout c1State 1 "addr").2.orders = c1State.orders ∧
      (checkout c1State 1 "addr").2.orderItems = c1State.orderItems :=
  checkout_insufficient_rolls_back c1State 1 "addr" (by decide)

/-- C2: stock stays a non-negative integer across every operation of the core.
A successful checkout replaces every product row by the same row with its
stock decremented by the total quantity the cart requested for it (with the
per-cart uniqueness constraint, exactly the quantity of its single line); the
per-line check `stock >= quantity` makes the result non-negative.  The other
cart operations never touch the product table. -/
theorem checkout_preserves_stock_nonneg (s : State) (sh : Nat) (addr : String)
    (hprodnd : (s.products.map (fun p => p.pid)).Nodup)
    (hitemnd : ((cartItemsOf s sh).map (fun it => it.productId)).Nodup)
    (hpos : ∀ p ∈ s.products, 0 ≤ p.stock) :
    (∀ p ∈ (checkout s sh addr).2.products, 0 ≤ p.stock) ∧
    (∀ o, (checkout s sh addr).1 = CheckoutResult.success o →
        (checkout s sh addr).2.products
          = s.products.map
              (fun p => { p with stock := p.stock - sumQty (cartItemsOf s sh) p.pid })) ∧
    (∀ pid2 qty2, (add_item s sh pid2 qty2).2.products = s.products) ∧
    (∀ po, (remove_item s sh po).2.products = s.products) := by
  have hmain : (∀ p ∈ (checkout s sh addr).2.products, 0 ≤ p.stock) ∧
      (∀ o, (checkout s sh addr).1 = CheckoutResult.success o →
        (checkout s sh addr).2.products
          = s.products.map
              (fun p => { p with stock := p.stock - sumQty (cartItemsOf s sh) p.pid })) := by
    by_cases h1 : cartItemsOf s sh = []
    · rw [checkout_empty_eq s sh addr h1]
      refine ⟨?_, ?_⟩
      · intro p hp
        simp only [getOrCreateCart_products] at hp
        exact hpos p hp
      · intro o ho
        simp at ho
    · cases hf : firstInsufficient s (cartItemsOf s sh) with
      | some it =>
          rw [checkout_insuff_eq s sh addr it h1 hf]
          refine ⟨?_, ?_⟩
          · intro p hp
            simp only [getOrCreateCart_products] at hp
            exact hpos p hp
          · intro o ho
            simp at ho
      | none =>
          have hform := checkout_products_formula s sh addr h1 hf
          unfold firstInsufficient at hf
          refine ⟨?_, fun o _ => hform⟩
          intro p hp
          rw [hform] at hp
          rcases List.mem_map.mp hp with ⟨q, hq, rfl⟩
          show 0 ≤ q.stock - sumQty (cartItemsOf s sh) q.pid
          by_cases hmem : q.pid ∈ (cartItemsOf s sh).map (fun it => it.productId)
          · rcases List.mem_map.mp hmem with ⟨it, hit, hpid⟩
            have hchk : ¬ (stockOf s it.productId < it.quantity) := by
              have h2 := List.find?_eq_none.mp hf it hit
              simpa using h2
            have hsum : sumQty (cartItemsOf s sh) q.pid = it.quantity := by
              rw [← hpid]
              exact sumQty_of_nodup (cartItemsOf s sh) it hitemnd hit
            have hst : stockOf s q.pid = q.stock := stockOf_of_nodup s q hprodnd hq
            have hle := not_lt.mp hchk
            rw [hpid, hst] at hle
            rw [hsum]
            omega
          · rw [sumQty_eq_zero _ _ hmem, sub_zero]
            exact hpos q hq
  exact ⟨hmain.1, hmain.2, fun pid2 qty2 => add_item_products s sh pid2 qty2,
    fun po => remove_item_products s sh po⟩

/-- Witness for C2: after checking out the two-line demo cart, product 1 sits
in the committed product table with stock 8 = 10 - 2, still non-negative. -/
theorem checkout_preserves_stock_nonneg_witness :
    ({ pid := 1, price := 9999, stock := 8, isActive := true } : Product)
        ∈ (checkout c2State 1 "a").2.products ∧
    0 ≤ ({ pid := 1, price := 9999, stock := 8, isActive := true } : Product).stock :=
  ⟨by decide,
   (checkout_preserves_stock_nonneg c2State 1 "a" (by decide) (by decide) (by decide)).1
     { pid := 1, price := 9999, stock := 8, isActive := true } (by decide)⟩

/-- C3: for every successful checkout, the total amount of the created order
equals the sum over its order items of unit price times quantity, computed
exactly (integer cents embed the two-place decimal fixed-point arithmetic with
no rounding loss), and each order item freezes as its unit price the product
price at checkout time. -/
theorem checkout_total_conservation (s : State) (sh : Nat) (addr : String) (o : Order)
    (hfresh : ∀ ol ∈ s.orderItems, ol.orderId < s.nextOrderId)
    (hsucc : (checkout s sh addr).1 = CheckoutResult.success o) :
    o.totalAmount
      = (((checkout s sh addr).2.orderItems.filter (fun ol => ol.orderId == o.oid)).map
          (fun ol => ol.unitPrice * ol.quantity)).sum ∧
    ∀ ol ∈ (checkout s sh addr).2.orderItems.filter (fun ol => ol.orderId == o.oid),
      ol.unitPrice = priceOf s ol.productId := by
  obtain ⟨h1, hf, heq⟩ := checkout_success_inv s sh addr o hsucc
  rw [heq] at hsucc
  have h2 : CheckoutResult.success
      (checkoutOrder (getOrCreateCart s sh) sh addr (cartItemsOf s sh))
      = CheckoutResult.success o := hsucc
  injection h2 with ho
  obtain ⟨hfil, htot, hfro⟩ := commitCheckout_conservation (getOrCreateCart s sh) sh addr
    (cartItemsOf s sh) (by simpa using hfresh)
  constructor
  · rw [heq, ← ho, hfil]
    exact htot
  · rw [heq, ← ho, hfil]
    intro ol hol
    rw [← priceOf_getOrCreate s sh ol.productId]
    exact hfro ol hol

/-- Witness for C3 at the scenario data: 2 x 99.99 + 3 x 5.00 = 214.98. -/
theorem checkout_total_conservation_witness :
    c3Order.totalAmount
      = (((checkout c2State 1 "a").2.orderItems.filter
            (fun ol => ol.orderId == c3Order.oid)).map
          (fun ol => ol.unitPrice * ol.quantity)).sum :=
  (checkout_total_conservation c2State 1 "a" c3Order (by decide) (by decide)).1

/-- C4 counterexample: a cart whose items are stored with product 2 before
product 1 makes the checkout queryset - and hence its row locks - visit the
products in the order [2, 1], which is not ascending by product identifier:
the queryset of views.py lines 269-271 has no order_by clause. -/
theorem checkout_lock_order_not_ascending :
    checkoutLockOrder c4State 1 = [2, 1] ∧
    ¬ List.Sorted (fun a b => a ≤ b) (checkoutLockOrder c4State 1) := by
  constructor
  · rfl
  · decide

/-- C4 amended: checkout acquires row locks on exactly the products referenced
by the cart items of the shopper, but in the stored order of those cart items;
the code imposes no ordering by product identifier. -/
theorem checkout_lock_order_stored (s : State) (sh : Nat) :
    checkoutLockOrder s sh = (cartItemsOf s sh).map (fun it => it.productId) ∧
    ∀ pid : Nat, pid ∈ checkoutLockOrder s sh ↔
      ∃ it ∈ cartItemsOf s sh, it.productId = pid := by
  refine ⟨rfl, ?_⟩
  intro pid
  exact List.mem_map

/-- C5 counterexample: when the transaction layer reports a serialization
conflict on the first attempt, the checkout engine surfaces it having made
exactly one attempt - the view contains no retry construct at all. -/
theorem checkout_conflict_surfaces_without_retry :
    checkoutEngine c2State 1 "a" (fun _ => true) = TxResult.conflict 1 := rfl

/-- C5 amended: the engine performs no retry of its own: whenever the
transaction layer reports a serialization failure on the single attempt the
view makes, that failure surfaces directly to the caller with one attempt
made; retrying is left to the caller. -/
theorem checkout_engine_single_attempt (s : State) (sh : Nat) (addr : String)
    (txConflict : Nat → Bool) (h : txConflict 1 = true) :
    checkoutEngine s sh addr txConflict = TxResult.conflict 1 := by
  unfold checkoutEngine
  rw [if_pos h]

/-- Witness for the amended C5. -/
theorem checkout_engine_single_attempt_witness :
    checkoutEngine c2State 1 "b" (fun _ => true) = TxResult.conflict 1 :=
  checkout_engine_single_attempt c2State 1 "b" (fun _ => true) rfl

/-- C6 counterexample: shopper 1 has no cart items and no cart row; checkout
answers the empty-cart 400, but a Cart row for the shopper is created and
committed (`_get_or_create_cart` runs before the empty check, and the atomic
block commits on a normal return), so persistent state is modified. -/
theorem checkout_empty_cart_creates_cart_row :
    (checkout c6State 1 "addr").1 = CheckoutResult.emptyCart ∧
    (checkout c6State 1 "addr").2.carts = [1] ∧
    c6State.carts = [] :=
  ⟨rfl, rfl, rfl⟩

/-- C6 amended: checkout on an empty cart fails with the empty-cart error and
leaves products, cart items, orders, order items and the order counter
unchanged; the only state change is that a Cart row is created for the shopper
when they had none. -/
theorem checkout_empty_cart_effects (s : State) (sh : Nat) (addr : String)
    (hempty : cartItemsOf s sh = []) :
    (checkout s sh addr).1 = CheckoutResult.emptyCart ∧
    (checkout s sh addr).2.products = s.products ∧
    (checkout s sh addr).2.cartItems = s.cartItems ∧
    (checkout s sh addr).2.orders = s.orders ∧
    (checkout s sh addr).2.orderItems = s.orderItems ∧
    (checkout s sh addr).2.nextOrderId = s.nextOrderId ∧
    (checkout s sh addr).2.carts = (getOrCreateCart s sh).carts := by
  rw [checkout_empty_eq s sh addr hempty]
  exact ⟨rfl, by simp, by simp, by simp, by simp, by simp, rfl⟩

/-- Witness for the amended C6. -/
theorem checkout_empty_cart_effects_witness :
    (checkout c6State 1 "addr").1 = CheckoutResult.emptyCart ∧
    (checkout c6State 1 "addr").2.products = c6State.products ∧
    (checkout c6State 1 "addr").2.cartItems = c6State.cartItems ∧
    (checkout c6State 1 "addr").2.orders = c6State.orders ∧
    (checkout c6State 1 "addr").2.orderItems = c6State.orderItems ∧
    (checkout c6State 1 "addr").2.nextOrderId = c6State.nextOrderId ∧
    (checkout c6State 1 "addr").2.carts = (getOrCreateCart c6State 1).carts :=
  checkout_empty_cart_effects c6State 1 "addr" (by decide)

/-- C7: after every successful checkout the cart of the shopper is empty; the
new cart-item table is exactly the old one minus the rows of the shopper, so
cart items of other shoppers survive, and every product row not referenced by
the checked-out cart is still present unchanged. -/
theorem checkout_success_clears_cart (s : State) (sh : Nat) (addr : String) (o : Order)
    (hsucc : (checkout s sh addr).1 = CheckoutResult.success o) :
    cartItemsOf (checkout s sh addr).2 sh = [] ∧
    (checkout s sh addr).2.cartItems
      = s.cartItems.filter (fun it => !(it.userId == sh)) ∧
    ∀ p ∈ s.products, p.pid ∉ (cartItemsOf s sh).map (fun it => it.productId) →
      p ∈ (checkout s sh addr).2.products := by
  obtain ⟨h1, hf, heq⟩ := checkout_success_inv s sh addr o hsucc
  have hform := checkout_products_formula s sh addr h1 hf
  refine ⟨?_, ?_, ?_⟩
  · rw [heq]
    show ((getOrCreateCart s sh).cartItems.filter
        (fun it => !(it.userId == sh))).filter (fun it => it.userId == sh) = []
    rw [getOrCreateCart_cartItems, List.filter_filter, List.filter_eq_nil_iff]
    intro it hit
    simp
  · rw [heq]
    show (getOrCreateCart s sh).cartItems.filter (fun it => !(it.userId == sh)) = _
    rw [getOrCreateCart_cartItems]
  · intro p hp hnot
    rw [hform]
    have hz : sumQty (cartItemsOf s sh) p.pid = 0 := sumQty_eq_zero _ _ hnot
    have hfix : (fun q => { q with stock := q.stock - sumQty (cartItemsOf s sh) q.pid }) p
        = p := by
      simp [hz]
    exact hfix ▸ List.mem_map_of_mem _ hp

/-- Witness for C7: checking out the demo cart empties the cart of shopper 1. -/
theorem checkout_success_clears_cart_witness :
    cartItemsOf (checkout c2State 1 "a").2 1 = [] :=
  (checkout_success_clears_cart c2State 1 "a" c3Order (by decide)).1

/-- C8: when the cart of the shopper already contains exactly one line for the
product, a successful `add_item` replaces the stored quantity with the
requested one (it does not add them), and the cart still contains exactly one
line for that product afterwards. -/
theorem add_item_replaces_quantity (s : State) (sh pid : Nat) (qty : Int) (p : Product)
    (hp : findActiveProduct s pid = some p)
    (hq : 1 ≤ qty) (hstock : qty ≤ p.stock)
    (hone : s.cartItems.countP (fun it => it.userId == sh && it.productId == pid) = 1) :
    (add_item s sh pid qty).1 = AddResult.ok ∧
    (add_item s sh pid qty).2.cartItems.countP
        (fun it => it.userId == sh && it.productId == pid) = 1 ∧
    ∀ it ∈ (add_item s sh pid qty).2.cartItems,
      (it.userId == sh && it.productId == pid) = true → it.quantity = qty := by
  have hvalid : addToCartValid s pid qty = true := by
    unfold addToCartValid
    rw [hp]
    show (if qty < 1 then false else if p.stock < qty then false else true) = true
    rw [if_neg (not_lt.mpr hq), if_neg (not_lt.mpr hstock)]
  have hexists : s.cartItems.any
      (fun it => it.userId == sh && it.productId == pid) = true := by
    rw [List.any_eq_true]
    refine List.countP_pos_iff.mp ?_
    omega
  have hexists2 : (getOrCreateCart s sh).cartItems.any
      (fun it => it.userId == sh && it.productId == pid) = true := by
    rw [getOrCreateCart_cartItems]
    exact hexists
  have heq : add_item s sh pid qty
      = (AddResult.ok, upsertItem (getOrCreateCart s sh) sh pid qty) := by
    unfold add_item
    rw [if_pos hvalid]
    simp only [hp]
    rw [if_neg (not_lt.mpr hstock)]
  have hupseq : upsertItem (getOrCreateCart s sh) sh pid qty
      = { getOrCreateCart s sh with cartItems :=
          (getOrCreateCart s sh).cartItems.map (fun it =>
            if it.userId == sh && it.productId == pid then { it with quantity := qty }
            else it) } := by
    unfold upsertItem
    rw [if_pos hexists2]
  have hpred : ∀ it0 : CartItem,
      (((if it0.userId == sh && it0.productId == pid then { it0 with quantity := qty }
          else it0).userId == sh) &&
        ((if it0.userId == sh && it0.productId == pid then { it0 with quantity := qty }
          else it0).productId == pid))
        = (it0.userId == sh && it0.productId == pid) := by
    intro it0
    by_cases hc : (it0.userId == sh && it0.productId == pid) = true
    · simp [hc]
    · simp [hc]
  refine ⟨by rw [heq], ?_, ?_⟩
  · rw [heq, hupseq]
    show ((getOrCreateCart s sh).cartItems.map _).countP _ = 1
    rw [getOrCreateCart_cartItems, countP_map_eq _ _ hpred]
    exact hone
  · rw [heq, hupseq]
    intro it hit htrue
    show it.quantity = qty
    rw [getOrCreateCart_cartItems] at hit
    rcases List.mem_map.mp hit with ⟨it0, h0, rfl⟩
    rw [hpred it0] at htrue
    simp [htrue]

/-- Witness for C8: replacing quantity 2 by 4 for product 1. -/
theorem add_item_replaces_quantity_witness :
    (add_item c8State 1 1 4).1 = AddResult.ok ∧
    (add_item c8State 1 1 4).2.cartItems.countP
        (fun it => it.userId == 1 && it.productId == 1) = 1 ∧
    ∀ it ∈ (add_item c8State 1 1 4).2.cartItems,
      (it.userId == 1 && it.productId == 1) = true → it.quantity = 4 :=
  add_item_replaces_quantity c8State 1 1 4
    { pid := 1, price := 9999, stock := 10, isActive := true }
    (by decide) (by decide) (by decide) (by decide)

/-- C9: `add_item` mutates nothing unless the product exists, is active, the
quantity is at least 1 and the stock covers it; in exactly those cases the
call answers ok, and in every other case it answers an error with the whole
state unchanged. -/
theorem add_item_guarded (s : State) (sh pid : Nat) (qty : Int) :
    (addOk s pid qty ∧ (add_item s sh pid qty).1 = AddResult.ok) ∨
    (¬ addOk s pid qty ∧ (add_item s sh pid qty).1 ≠ AddResult.ok ∧
      (add_item s sh pid qty).2 = s) := by
  cases hp : findActiveProduct s pid with
  | none =>
      right
      have hv : addToCartValid s pid qty = false := by
        unfold addToCartValid
        rw [hp]
      refine ⟨?_, ?_, ?_⟩
      · simp only [addOk, hp]
        exact not_false
      · unfold add_item
        rw [if_neg (by simp [hv])]
        simp
      · unfold add_item
        rw [if_neg (by simp [hv])]
  | some p =>
      by_cases hq : qty < 1
      · right
        have hv : addToCartValid s pid qty = false := by
          simp only [addToCartValid, hp]
          rw [if_pos hq]
        refine ⟨?_, ?_, ?_⟩
        · simp only [addOk, hp]
          intro hc
          omega
        · unfold add_item
          rw [if_neg (by simp [hv])]
          simp
        · unfold add_item
          rw [if_neg (by simp [hv])]
      · by_cases hs : p.stock < qty
        · right
          have hv : addToCartValid s pid qty = false := by
            simp only [addToCartValid, hp]
            rw [if_neg hq, if_pos hs]
          refine ⟨?_, ?_, ?_⟩
          · simp only [addOk, hp]
            intro hc
            omega
          · unfold add_item
            rw [if_neg (by simp [hv])]
            simp
          · unfold add_item
            rw [if_neg (by simp [hv])]
        · left
          have hv : addToCartValid s pid qty = true := by
            simp only [addToCartValid, hp]
            rw [if_neg hq, if_neg hs]
          refine ⟨?_, ?_⟩
          · simp only [addOk, hp]
            exact ⟨not_lt.mp hq, not_lt.mp hs⟩
          · unfold add_item
            rw [if_pos hv]
            simp only [hp]
            rw [if_neg hs]

/-- C10: with a genuine product identifier (Django primary keys are positive),
`remove_item` succeeds even when the cart holds no line for that product,
leaving the cart items unchanged in that case, and applying it twice yields
exactly the state of applying it once. -/
theorem remove_item_idempotent (s : State) (sh pid : Nat) (hpid : pid ≠ 0) :
    (remove_item s sh (some pid)).1 = true ∧
    ((∀ it ∈ s.cartItems, ¬ (it.userId = sh ∧ it.productId = pid)) →
      (remove_item s sh (some pid)).2.cartItems = s.cartItems) ∧
    remove_item (remove_item s sh (some pid)).2 sh (some pid)
      = (true, (remove_item s sh (some pid)).2) := by
  have hbeq : ¬ ((pid == 0) = true) := by simp [hpid]
  have heq1 := remove_item_some_eq s sh pid hbeq
  refine ⟨by rw [heq1], ?_, ?_⟩
  · intro hno
    rw [heq1]
    show (getOrCreateCart s sh).cartItems.filter _ = s.cartItems
    rw [getOrCreateCart_cartItems, List.filter_eq_self]
    intro it hit
    have h2 := hno it hit
    simp at h2 ⊢
    tauto
  · rw [heq1]
    show remove_item (removeItemState s sh pid) sh (some pid)
      = (true, removeItemState s sh pid)
    rw [remove_item_some_eq (removeItemState s sh pid) sh pid hbeq]
    have hcon : (removeItemState s sh pid).carts.contains sh = true := by
      show (getOrCreateCart s sh).carts.contains sh = true
      exact getOrCreateCart_contains s sh
    have hfil : (removeItemState s sh pid).cartItems.filter
        (fun it => !(it.userId == sh && it.productId == pid))
        = (removeItemState s sh pid).cartItems := by
      show ((getOrCreateCart s sh).cartItems.filter _).filter _
        = (getOrCreateCart s sh).cartItems.filter _
      rw [List.filter_filter]
      congr 1
      funext it
      rw [Bool.and_self]
    rw [removeItemState_eq_self (removeItemState s sh pid) sh pid hcon hfil]

/-- Witness for C10: removing absent product 2 twice from the cart of
shopper 1. -/
theorem remove_item_idempotent_witness :
    (remove_item c10State 1 (some 2)).1 = true ∧
    ((∀ it ∈ c10State.cartItems, ¬ (it.userId = 1 ∧ it.productId = 2)) →
      (remove_item c10State 1 (some 2)).2.cartItems = c10State.cartItems) ∧
    remove_item (remove_item c10State 1 (some 2)).2 1 (some 2)
      = (true, (remove_item c10State 1 (some 2)).2) :=
  remove_item_idempotent c10State 1 2 (by decide)

end OnlineKart
